import Mathlib

/-!
Shallow embedding of svg-cli.py: a CLI that builds a request to a
text-completion endpoint, extracts an SVG span from the response text,
and writes it to a file.  Strings handled by the extractor are modelled
as `List Char`; Python `str.find` becomes `findSub` returning `Option Nat`
(Python returns -1 when absent, guarded by the `in` checks which the
source performs first); the Python slice `s[a:b]` becomes `pySlice`.
Process effects (echo, exit, file and network I/O) are modelled as an
event trace plus an `Outcome`.
-/

namespace SvgCli

/-- Single-quote character, used in the literal error messages of the source. -/
def sq : String := String.singleton (Char.ofNat 39)

/-- Literal "<svg" from svg-cli.py line 81. -/
def svgOpen : List Char := "<svg".data

/-- Literal "</svg>" from svg-cli.py line 81. -/
def svgClose : List Char := "</svg>".data

/-- Python str.find: index of the first occurrence of pat in s, if any. -/
def findSub (pat : List Char) : List Char → Option Nat
  | [] => if pat <+: ([] : List Char) then some 0 else none
  | c :: rest =>
    if pat <+: (c :: rest) then some 0
    else (findSub pat rest).map (· + 1)

/-- Python slice s[a:b] for natural bounds. -/
def pySlice (s : List Char) (a b : Nat) : List Char :=
  (s.drop a).take (b - a)

/-- Error message printed at svg-cli.py lines 86 and 132. -/
def errInvalidOutput : String :=
  "Error: Claude" ++ sq ++ "s response did not contain valid SVG code."

/-- Error message printed at svg-cli.py line 39. -/
def errNoKey : String :=
  "Error: Claude API key not found. Please set ANTHROPIC_API_KEY in your environment."

/-- Error message printed at svg-cli.py line 100. -/
def errFileNotFound (input_file : String) : String :=
  "Error: Input file " ++ sq ++ input_file ++ sq ++ " not found."

/-- Extraction logic transcribed from create_svg, svg-cli.py lines 81-87:
if "<svg" in content and "</svg>" in content, return
content[content.find "<svg" : content.find "</svg>" + 6], else report
errInvalidOutput and exit 1 (modelled as the error branch). -/
def extractSvgCreate (content : List Char) : Except String (List Char) :=
  match findSub svgOpen content, findSub svgClose content with
  | some svg_start, some closeAt => .ok (pySlice content svg_start (closeAt + 6))
  | _, _ => .error errInvalidOutput

/-- Extraction logic transcribed from edit_svg, svg-cli.py lines 127-133;
the source duplicates the body of lines 81-87 verbatim. -/
def extractSvgEdit (content : List Char) : Except String (List Char) :=
  match findSub svgOpen content, findSub svgClose content with
  | some svg_start, some closeAt => .ok (pySlice content svg_start (closeAt + 6))
  | _, _ => .error errInvalidOutput

/-- Model identifier, svg-cli.py line 21. -/
def MODEL : String := "claude-3-opus-20240229"

/-- Endpoint, svg-cli.py line 20. -/
def API_URL : String := "https://api.anthropic.com/v1/messages"

/-- System prompt, svg-cli.py lines 24-33. -/
def SVG_SYSTEM_PROMPT : String :=
  "You are an expert SVG creator. The user will ask you to create or modify SVG images.\n\nIMPORTANT INSTRUCTIONS:\n1. Respond ONLY with valid SVG code\n2. Do NOT include any explanations, comments, or markdown\n3. Your response must start with <svg and end with </svg>\n4. Create clean, optimized SVG code\n5. Do not include any text outside the SVG tags\n\nIf editing an existing SVG, maintain its structure while implementing the requested changes."

/-- One content block of an edit-mode message, as in svg-cli.py lines 113-114. -/
structure TextBlock where
  type : String
  text : String
  deriving DecidableEq

/-- Message content: a bare string (create mode) or a block list (edit mode). -/
inductive MsgContent
  | plain (text : String)
  | blocks (bs : List TextBlock)
  deriving DecidableEq

/-- One message turn. -/
structure Message where
  role : String
  content : MsgContent
  deriving DecidableEq

/-- The request body dict built at svg-cli.py lines 65-72 and 105-118. -/
structure RequestPayload where
  model : String
  max_tokens : Nat
  system : String
  messages : List Message
  deriving DecidableEq

/-- The data dict of create_svg, svg-cli.py lines 65-72. -/
def createData (prompt : String) : RequestPayload :=
  { model := MODEL
    max_tokens := 4096
    system := SVG_SYSTEM_PROMPT
    messages := [{ role := "user"
                   content := .plain ("Create an SVG image based on this description: " ++ prompt) }] }

/-- The data dict of edit_svg, svg-cli.py lines 105-118. -/
def editData (prompt svg_content : String) : RequestPayload :=
  { model := MODEL
    max_tokens := 4096
    system := SVG_SYSTEM_PROMPT
    messages := [{ role := "user"
                   content := .blocks
                     [{ type := "text", text := "Here is an SVG file. " ++ prompt }
                      , { type := "text", text := svg_content }] }] }

/-- Python truthiness of the API_KEY global (svg-cli.py line 19): None and
the empty string are falsy. -/
def truthy : Option String → Bool
  | none => false
  | some s => !s.isEmpty

/-- Header dict built at svg-cli.py lines 48-57, for a present key. -/
def buildHeaders (apiKey : String) : List (String × String) :=
  let headers := [("anthropic-version", "2023-06-01"), ("content-type", "application/json")]
  if apiKey.startsWith "sk-ant-" then headers ++ [("x-api-key", apiKey)]
  else headers ++ [("authorization", "Bearer " ++ apiKey)]

/-- Observable process events of one invocation. -/
inductive Event
  | credCheck
  | echo (msg : String)
  | netPost (url : String) (headers : List (String × String)) (payload : RequestPayload)
  | fileRead (path : String)
  | fileWrite (path : String) (contents : List Char)
  deriving DecidableEq

/-- Result of one invocation: a value, or sys.exit with a code. -/
inductive Outcome (α : Type)
  | ok (v : α)
  | exited (code : Nat)
  deriving DecidableEq

/-- Ambient state of one run: the API_KEY environment value, the readable
files, and what the network POST would yield (the text of the first
content block of the decoded response, or a transport error message). -/
structure World where
  apiKey : Option String
  files : List (String × String)
  netResponse : Except String (List Char)

/-- validate_api_key, svg-cli.py lines 36-40. -/
def validate_api_key (apiKey : Option String) : List Event × Outcome Unit :=
  if truthy apiKey then ([.credCheck], .ok ())
  else ([.credCheck, .echo errNoKey], .exited 1)

/-- get_headers, svg-cli.py lines 43-59: validate the key, then build the
header dict (the key is present whenever validation passed). -/
def get_headers (w : World) : List Event × Outcome (List (String × String)) :=
  match validate_api_key w.apiKey with
  | (t, .exited c) => (t, .exited c)
  | (t, .ok _) => (t, .ok (buildHeaders (w.apiKey.getD "")))

/-- create_svg, svg-cli.py lines 61-90: headers, POST, extract. -/
def create_svg (w : World) (prompt : String) : List Event × Outcome (List Char) :=
  match get_headers w with
  | (t, .exited c) => (t, .exited c)
  | (t, .ok headers) =>
    let t := t ++ [.netPost API_URL headers (createData prompt)]
    match w.netResponse with
    | .error e => (t ++ [.echo ("Error calling Claude API: " ++ e)], .exited 1)
    | .ok content =>
      match extractSvgCreate content with
      | .ok svg => (t, .ok svg)
      | .error msg => (t ++ [.echo msg], .exited 1)

/-- edit_svg, svg-cli.py lines 93-136: read the input file, then headers,
POST, extract. -/
def edit_svg (w : World) (input_file prompt : String) : List Event × Outcome (List Char) :=
  match w.files.lookup input_file with
  | none => ([.fileRead input_file, .echo (errFileNotFound input_file)], .exited 1)
  | some svg_content =>
    match get_headers w with
    | (t, .exited c) => (.fileRead input_file :: t, .exited c)
    | (t, .ok headers) =>
      let t := .fileRead input_file :: t ++ [.netPost API_URL headers (editData prompt svg_content)]
      match w.netResponse with
      | .error e => (t ++ [.echo ("Error calling Claude API: " ++ e)], .exited 1)
      | .ok content =>
        match extractSvgEdit content with
        | .ok svg => (t, .ok svg)
        | .error msg => (t ++ [.echo msg], .exited 1)

/-- The create command, svg-cli.py lines 145-160 (the IOError branch of the
file write is outside the claims; the write is recorded as an event). -/
def create_cmd (w : World) (prompt output : String) : List Event × Outcome Unit :=
  let t0 : List Event := [.echo ("Creating SVG from prompt: " ++ prompt)]
  match create_svg w prompt with
  | (t, .exited c) => (t0 ++ t, .exited c)
  | (t, .ok svg) =>
    (t0 ++ t ++ [.fileWrite output svg, .echo ("SVG created successfully: " ++ output)], .ok ())

/-- The edit command, svg-cli.py lines 163-179. -/
def edit_cmd (w : World) (input output prompt : String) : List Event × Outcome Unit :=
  let t0 : List Event := [.echo ("Editing SVG " ++ input ++ " with prompt: " ++ prompt)]
  match edit_svg w input prompt with
  | (t, .exited c) => (t0 ++ t, .exited c)
  | (t, .ok svg) =>
    (t0 ++ t ++ [.fileWrite output svg, .echo ("SVG edited successfully: " ++ output)], .ok ())

/-- Scans a trace left to right: true when no netPost event occurs before
the first credCheck event, i.e. every netPost is preceded by a credCheck. -/
def noPostBeforeCheck : List Event → Bool
  | [] => true
  | .credCheck :: _ => true
  | .netPost _ _ _ :: _ => false
  | _ :: t => noPostBeforeCheck t

/-- Scans a trace left to right: true when neither a credCheck nor a
netPost event occurs before the first fileRead event. -/
def noCheckBeforeRead : List Event → Bool
  | [] => true
  | .fileRead _ :: _ => true
  | .credCheck :: _ => false
  | .netPost _ _ _ :: _ => false
  | _ :: t => noCheckBeforeRead t

/-- When findSub reports index n, the pattern occurs at n. -/
theorem findSub_prefix (pat s : List Char) (n : Nat) (h : findSub pat s = some n) :
    pat <+: s.drop n := by
  induction s generalizing n with
  | nil =>
    simp only [findSub] at h
    split at h
    · cases h; simpa using ‹pat <+: ([] : List Char)›
    · exact absurd h (by simp)
  | cons c rest ih =>
    simp only [findSub] at h
    split at h
    · cases h; simpa using ‹pat <+: c :: rest›
    · obtain ⟨m, hm, rfl⟩ := Option.map_eq_some'.mp h
      simpa using ih m hm

/-- findSub reports the first occurrence: nothing matches strictly earlier. -/
theorem findSub_min (pat s : List Char) (n : Nat) (h : findSub pat s = some n) :
    ∀ m, m < n → ¬ pat <+: s.drop m := by
  induction s generalizing n with
  | nil =>
    simp only [findSub] at h
    split at h
    · cases h; omega
    · exact absurd h (by simp)
  | cons c rest ih =>
    simp only [findSub] at h
    split at h
    · cases h; omega
    · obtain ⟨k, hk, rfl⟩ := Option.map_eq_some'.mp h
      intro m hm
      match m with
      | 0 => simpa using ‹¬ pat <+: c :: rest›
      | m + 1 =>
        have := ih k hk m (by omega)
        simpa using this

/-- When findSub reports nothing, the pattern occurs nowhere. -/
theorem findSub_none (pat s : List Char) (h : findSub pat s = none) :
    ∀ m, ¬ pat <+: s.drop m := by
  induction s with
  | nil =>
    simp only [findSub] at h
    split at h
    · exact absurd h (by simp)
    · intro m; simpa using ‹¬ pat <+: ([] : List Char)›
  | cons c rest ih =>
    simp only [findSub] at h
    split at h
    · exact absurd h (by simp)
    · intro m
      match m with
      | 0 => simpa using ‹¬ pat <+: c :: rest›
      | m + 1 =>
        have := ih (by simpa using h) m
        simpa using this

/-- Converse construction: an occurrence at n that is earliest is what
findSub reports. -/
theorem findSub_eq_some_of (pat s : List Char) (n : Nat)
    (h1 : pat <+: s.drop n) (h2 : ∀ m, m < n → ¬ pat <+: s.drop m) :
    findSub pat s = some n := by
  induction s generalizing n with
  | nil =>
    simp only [List.drop_nil] at h1
    match n with
    | 0 => simp only [findSub]; rw [if_pos h1]
    | n + 1 => exact absurd h1 (by simpa using h2 0 (by omega))
  | cons c rest ih =>
    match n with
    | 0 =>
      simp only [List.drop_zero] at h1
      simp only [findSub]; rw [if_pos h1]
    | n + 1 =>
      have h0 : ¬ pat <+: c :: rest := by simpa using h2 0 (by omega)
      simp only [findSub]
      rw [if_neg h0]
      have := ih n (by simpa using h1) (fun m hm => by
        have := h2 (m + 1) (by omega)
        simpa using this)
      rw [this]
      rfl

/-- A prefix of a list is a prefix of any take that is at least as long. -/
theorem prefix_take_of_le {p l : List Char} {k : Nat} (h : p <+: l) (hk : p.length ≤ k) :
    p <+: l.take k :=
  List.prefix_take_iff.mpr ⟨h, hk⟩

/-- A prefix of a take is a prefix of the list. -/
theorem prefix_of_prefix_take {p l : List Char} {k : Nat} (h : p <+: l.take k) : p <+: l :=
  h.trans (List.take_prefix k l)

/-- Characterization of the slice the extractor returns when the first
"<svg" occurrence starts before the first "</svg>" occurrence: the slice
starts with "<svg", its first "</svg>" sits at relative index en - st,
and its length is exactly en + 6 - st. -/
theorem slice_spec (t : List Char) (st en : Nat)
    (hst : findSub svgOpen t = some st) (hen : findSub svgClose t = some en)
    (hlt : st < en) :
    svgOpen <+: pySlice t st (en + 6) ∧
    findSub svgClose (pySlice t st (en + 6)) = some (en - st) ∧
    (pySlice t st (en + 6)).length = en + 6 - st := by
  have hO : svgOpen <+: t.drop st := findSub_prefix _ _ _ hst
  have hC : svgClose <+: t.drop en := findSub_prefix _ _ _ hen
  have hlenC : (6 : Nat) ≤ (t.drop en).length := by
    have := hC.length_le
    simpa [svgClose] using this
  have htlen : en + 6 ≤ t.length := by
    simp only [List.length_drop] at hlenC
    omega
  have hopen4 : svgOpen.length = 4 := by decide
  refine ⟨?_, ?_, ?_⟩
  · exact prefix_take_of_le hO (by omega)
  · apply findSub_eq_some_of
    · have hdt : (pySlice t st (en + 6)).drop (en - st) = (t.drop en).take 6 := by
        simp only [pySlice, List.drop_take, List.drop_drop]
        have h1 : st + (en - st) = en := by omega
        have h2 : en + 6 - st - (en - st) = 6 := by omega
        rw [h1, h2]
      rw [hdt]
      exact prefix_take_of_le hC (by decide)
    · intro m hm hpre
      have hdm : (pySlice t st (en + 6)).drop m = (t.drop (st + m)).take (en + 6 - st - m) := by
        simp only [pySlice, List.drop_take, List.drop_drop]
      rw [hdm] at hpre
      exact findSub_min _ _ _ hen (st + m) (by omega) (prefix_of_prefix_take hpre)
  · simp only [pySlice, List.length_take, List.length_drop]
    omega

/-- C1 (counterexample): the claim quantifies over every response text
containing both "<svg" and "</svg>".  The text "</svg><svg" contains
both, yet the extractor returns the empty string, which does not begin
with "<svg": Python computes find "<svg" = 6 and find "</svg>" + 6 = 6,
so the slice [6:6] is empty. -/
theorem C1_counterexample :
    (findSub svgOpen ("</svg><svg".data)).isSome = true ∧
    (findSub svgClose ("</svg><svg".data)).isSome = true ∧
    extractSvgCreate ("</svg><svg".data) = .ok [] ∧
    ¬ svgOpen <+: ([] : List Char) := by
  refine ⟨by decide, by decide, rfl, by decide⟩

/-- C1 (amended): for every response text in which the first occurrence
of "<svg" starts before the first occurrence of "</svg>", extraction
succeeds and returns exactly the slice from the first "<svg" through the
end of the first "</svg>" inclusive; that slice begins with "<svg" and
contains "</svg>" later. -/
theorem C1_extract_spans (t : List Char) (st en : Nat)
    (hst : findSub svgOpen t = some st) (hen : findSub svgClose t = some en)
    (hlt : st < en) :
    extractSvgCreate t = .ok (pySlice t st (en + 6)) ∧
    svgOpen <+: pySlice t st (en + 6) ∧
    findSub svgClose (pySlice t st (en + 6)) = some (en - st) := by
  obtain ⟨h1, h2, _⟩ := slice_spec t st en hst hen hlt
  exact ⟨by simp [extractSvgCreate, hst, hen], h1, h2⟩

/-- C1 witness at the concrete response text "<svg></svg>". -/
theorem C1_witness :
    extractSvgCreate ("<svg></svg>".data) = .ok (pySlice ("<svg></svg>".data) 0 (5 + 6)) ∧
    svgOpen <+: pySlice ("<svg></svg>".data) 0 (5 + 6) ∧
    findSub svgClose (pySlice ("<svg></svg>".data) 0 (5 + 6)) = some (5 - 0) :=
  C1_extract_spans ("<svg></svg>".data) 0 5 (by decide) (by decide) (by decide)

/-- C9 (counterexample): extraction succeeds on "a</svg>b<svg c"
(both substrings are present) returning the empty string, but extraction
fails on that result, so extract (extract t) differs from extract t for a
text t on which extraction succeeds. -/
theorem C9_counterexample :
    extractSvgCreate ("a</svg>b<svg c".data) = .ok [] ∧
    extractSvgCreate ([] : List Char) = .error errInvalidOutput := by
  exact ⟨rfl, rfl⟩

/-- C9 (amended): extraction is idempotent on every text whose first
"<svg" occurrence starts before its first "</svg>" occurrence: when
extraction succeeds on such a text, applying the extractor to the result
returns the result unchanged. -/
theorem C9_idempotent (t r : List Char) (st en : Nat)
    (hst : findSub svgOpen t = some st) (hen : findSub svgClose t = some en)
    (hlt : st < en) (hr : extractSvgCreate t = .ok r) :
    extractSvgCreate r = .ok r := by
  have hextr : extractSvgCreate t = .ok (pySlice t st (en + 6)) := by
    simp [extractSvgCreate, hst, hen]
  rw [hextr] at hr
  obtain ⟨h1, h2, h3⟩ := slice_spec t st en hst hen hlt
  have hreq : r = pySlice t st (en + 6) := by
    cases hr; rfl
  subst hreq
  have hfo : findSub svgOpen (pySlice t st (en + 6)) = some 0 := by
    apply findSub_eq_some_of
    · simpa using h1
    · intro m hm; omega
  simp only [extractSvgCreate, hfo, h2]
  congr 1
  simp only [pySlice, List.drop_zero, Nat.sub_zero]
  rw [List.take_of_length_le]
  simp only [pySlice] at h3
  rw [h3]
  omega

/-- C9 witness: extraction of the prose-wrapped text returns exactly
"<svg a/></svg>", and re-extraction returns it unchanged. -/
theorem C9_witness :
    extractSvgCreate ("<svg a/></svg>".data) = .ok ("<svg a/></svg>".data) :=
  C9_idempotent ("Here you go:\n<svg a/></svg>\nHope that helps!".data)
    ("<svg a/></svg>".data) 13 21 (by decide) (by decide) (by decide) rfl

/-- C10: the extraction logic duplicated in create_svg (lines 81-87) and
edit_svg (lines 127-133) computes the same function: identical extracted
string on success, identical output-shape error on failure. -/
theorem C10_same_extraction (content : List Char) :
    extractSvgCreate content = extractSvgEdit content := rfl

/-- C2: when the response text contains "<svg" but not "</svg>", the
extractor takes the invalid-output branch: create_svg prints the
invalid-output error and exits with code 1, and no slice is returned. -/
theorem C2_missing_close (w : World) (p : String) (c : List Char)
    (hkey : truthy w.apiKey = true) (hresp : w.netResponse = .ok c)
    (hopen : (findSub svgOpen c).isSome = true)
    (hclose : findSub svgClose c = none) :
    extractSvgCreate c = .error errInvalidOutput ∧
    (create_svg w p).2 = .exited 1 ∧
    Event.echo errInvalidOutput ∈ (create_svg w p).1 := by
  have hex : extractSvgCreate c = .error errInvalidOutput := by
    obtain ⟨n, hn⟩ := Option.isSome_iff_exists.mp hopen
    simp [extractSvgCreate, hn, hclose]
  refine ⟨hex, ?_, ?_⟩ <;>
    simp [create_svg, get_headers, validate_api_key, hkey, hresp, hex]

/-- C2 witness at the concrete response text "<svg". -/
theorem C2_witness :
    extractSvgCreate ("<svg".data) = .error errInvalidOutput ∧
    (create_svg ⟨some "key", [], .ok ("<svg".data)⟩ "p").2 = .exited 1 ∧
    Event.echo errInvalidOutput ∈ (create_svg ⟨some "key", [], .ok ("<svg".data)⟩ "p").1 :=
  C2_missing_close ⟨some "key", [], .ok ("<svg".data)⟩ "p" ("<svg".data)
    rfl rfl (by decide) (by decide)

/-- Every run of the create command opens with its banner echo and then
the credential check, before anything else. -/
theorem create_cmd_trace_shape (w : World) (p o : String) :
    ∃ rest, (create_cmd w p o).1 =
      Event.echo ("Creating SVG from prompt: " ++ p) :: Event.credCheck :: rest := by
  unfold create_cmd create_svg get_headers validate_api_key
  cases hk : truthy w.apiKey
  · simp [hk]
  · cases hr : w.netResponse with
    | error e => simp [hk, hr]
    | ok content =>
      cases hex : extractSvgCreate content with
      | error msg => simp [hk, hr, hex]
      | ok svg => simp [hk, hr, hex]

/-- Every run of the edit command opens with its banner echo and then the
input-file read; when the run proceeds past the read, the credential
check comes immediately after. -/
theorem edit_cmd_trace_shape (w : World) (i o p : String) :
    (edit_cmd w i o p).1 =
      [Event.echo ("Editing SVG " ++ i ++ " with prompt: " ++ p),
       Event.fileRead i, Event.echo (errFileNotFound i)] ∨
    ∃ rest, (edit_cmd w i o p).1 =
      Event.echo ("Editing SVG " ++ i ++ " with prompt: " ++ p) ::
        Event.fileRead i :: Event.credCheck :: rest := by
  unfold edit_cmd edit_svg get_headers validate_api_key
  cases hf : w.files.lookup i with
  | none => left; simp [hf]
  | some svg_content =>
    right
    cases hk : truthy w.apiKey
    · simp [hf, hk]
    · cases hr : w.netResponse with
      | error e => simp [hf, hk, hr]
      | ok content =>
        cases hex : extractSvgEdit content with
        | error msg => simp [hf, hk, hr, hex]
        | ok svg => simp [hf, hk, hr, hex]

/-- C3: for a present non-empty credential, get_headers succeeds and
header selection is decided purely by the sk-ant- prefix: an sk-ant-
credential yields the x-api-key header and no authorization header, any
other credential yields the Bearer authorization header and no x-api-key
header. -/
theorem C3_header_selection (w : World) (k : String)
    (hw : w.apiKey = some k) (hk : k.isEmpty = false) :
    (get_headers w).2 = .ok (buildHeaders k) ∧
    (k.startsWith "sk-ant-" = true →
      ("x-api-key", k) ∈ buildHeaders k ∧ ∀ v, ("authorization", v) ∉ buildHeaders k) ∧
    (k.startsWith "sk-ant-" = false →
      ("authorization", "Bearer " ++ k) ∈ buildHeaders k ∧
        ∀ v, ("x-api-key", v) ∉ buildHeaders k) := by
  refine ⟨?_, ?_, ?_⟩
  · simp [get_headers, validate_api_key, truthy, hw, hk]
  · intro hs
    refine ⟨by simp [buildHeaders, hs], fun v => by simp [buildHeaders, hs]⟩
  · intro hs
    refine ⟨by simp [buildHeaders, hs], fun v => by simp [buildHeaders, hs]⟩

/-- C3 witness at the two concrete credentials "sk-ant-k" and "tok". -/
theorem C3_witness :
    ((get_headers ⟨some "sk-ant-k", [], .error ""⟩).2 = .ok (buildHeaders "sk-ant-k") ∧
      (("sk-ant-k".startsWith "sk-ant-" = true →
        ("x-api-key", "sk-ant-k") ∈ buildHeaders "sk-ant-k" ∧
          ∀ v, ("authorization", v) ∉ buildHeaders "sk-ant-k")) ∧
      (("sk-ant-k".startsWith "sk-ant-" = false →
        ("authorization", "Bearer " ++ "sk-ant-k") ∈ buildHeaders "sk-ant-k" ∧
          ∀ v, ("x-api-key", v) ∉ buildHeaders "sk-ant-k"))) ∧
    ((get_headers ⟨some "tok", [], .error ""⟩).2 = .ok (buildHeaders "tok") ∧
      (("tok".startsWith "sk-ant-" = true →
        ("x-api-key", "tok") ∈ buildHeaders "tok" ∧
          ∀ v, ("authorization", v) ∉ buildHeaders "tok")) ∧
      (("tok".startsWith "sk-ant-" = false →
        ("authorization", "Bearer " ++ "tok") ∈ buildHeaders "tok" ∧
          ∀ v, ("x-api-key", v) ∉ buildHeaders "tok"))) :=
  ⟨C3_header_selection ⟨some "sk-ant-k", [], .error ""⟩ "sk-ant-k" rfl (by decide),
   C3_header_selection ⟨some "tok", [], .error ""⟩ "tok" rfl (by decide)⟩

/-- C4: with no usable credential, both commands exit with code 1 and
their traces contain no network POST; moreover, for every run of either
command (any world w2), no network POST event ever precedes the
credential-check event. -/
theorem C4_cred_before_network (w w2 : World) (p i o : String)
    (hk : truthy w.apiKey = false) :
    (create_cmd w p o).2 = .exited 1 ∧
    (∀ u hs d, Event.netPost u hs d ∉ (create_cmd w p o).1) ∧
    (edit_cmd w i o p).2 = .exited 1 ∧
    (∀ u hs d, Event.netPost u hs d ∉ (edit_cmd w i o p).1) ∧
    noPostBeforeCheck (create_cmd w2 p o).1 = true ∧
    noPostBeforeCheck (edit_cmd w2 i o p).1 = true := by
  refine ⟨?_, ?_, ?_, ?_, ?_, ?_⟩
  · simp [create_cmd, create_svg, get_headers, validate_api_key, hk]
  · intro u hs d
    simp [create_cmd, create_svg, get_headers, validate_api_key, hk]
  · cases hf : w.files.lookup i with
    | none => simp [edit_cmd, edit_svg, hf]
    | some s => simp [edit_cmd, edit_svg, get_headers, validate_api_key, hf, hk]
  · intro u hs d
    cases hf : w.files.lookup i with
    | none => simp [edit_cmd, edit_svg, hf]
    | some s => simp [edit_cmd, edit_svg, get_headers, validate_api_key, hf, hk]
  · obtain ⟨rest, hrest⟩ := create_cmd_trace_shape w2 p o
    rw [hrest]; rfl
  · rcases edit_cmd_trace_shape w2 i o p with h | ⟨rest, hrest⟩
    · rw [h]; rfl
    · rw [hrest]; rfl

/-- C4 witness at a credential-less world. -/
theorem C4_witness :
    (create_cmd ⟨none, [], .error ""⟩ "p" "o").2 = .exited 1 ∧
    (∀ u hs d, Event.netPost u hs d ∉ (create_cmd ⟨none, [], .error ""⟩ "p" "o").1) ∧
    (edit_cmd ⟨none, [], .error ""⟩ "i" "o" "p").2 = .exited 1 ∧
    (∀ u hs d, Event.netPost u hs d ∉ (edit_cmd ⟨none, [], .error ""⟩ "i" "o" "p").1) ∧
    noPostBeforeCheck (create_cmd ⟨none, [], .error ""⟩ "p" "o").1 = true ∧
    noPostBeforeCheck (edit_cmd ⟨none, [], .error ""⟩ "i" "o" "p").1 = true :=
  C4_cred_before_network ⟨none, [], .error ""⟩ ⟨none, [], .error ""⟩ "p" "i" "o" rfl

/-- C5: when the response text has no "<svg" substring, the create
command exits with code 1, prints the output-shape error, and its trace
contains no file write. -/
theorem C5_no_svg_no_write (w : World) (p o : String) (c : List Char)
    (hkey : truthy w.apiKey = true) (hresp : w.netResponse = .ok c)
    (hopen : findSub svgOpen c = none) :
    (create_cmd w p o).2 = .exited 1 ∧
    Event.echo errInvalidOutput ∈ (create_cmd w p o).1 ∧
    (∀ path cs, Event.fileWrite path cs ∉ (create_cmd w p o).1) := by
  have hex : extractSvgCreate c = .error errInvalidOutput := by
    cases hc2 : findSub svgClose c <;> simp [extractSvgCreate, hopen, hc2]
  refine ⟨?_, ?_, ?_⟩
  · simp [create_cmd, create_svg, get_headers, validate_api_key, hkey, hresp, hex]
  · simp [create_cmd, create_svg, get_headers, validate_api_key, hkey, hresp, hex]
  · intro path cs
    simp [create_cmd, create_svg, get_headers, validate_api_key, hkey, hresp, hex]

/-- C5 witness at the concrete response text "no image". -/
theorem C5_witness :
    (create_cmd ⟨some "key", [], .ok ("no image".data)⟩ "p" "o").2 = .exited 1 ∧
    Event.echo errInvalidOutput ∈ (create_cmd ⟨some "key", [], .ok ("no image".data)⟩ "p" "o").1 ∧
    (∀ path cs,
      Event.fileWrite path cs ∉ (create_cmd ⟨some "key", [], .ok ("no image".data)⟩ "p" "o").1) :=
  C5_no_svg_no_write ⟨some "key", [], .ok ("no image".data)⟩ "p" "o" ("no image".data)
    rfl rfl (by decide)

/-- C6: in edit mode with a missing input file, the command prints the
not-found error and exits with code 1, its trace contains no network
POST and no file write, and in every edit run (any world w2) neither the
credential check nor a POST precedes the input-file read. -/
theorem C6_missing_input (w w2 : World) (i o p : String)
    (hmiss : w.files.lookup i = none) :
    (edit_cmd w i o p).2 = .exited 1 ∧
    Event.echo (errFileNotFound i) ∈ (edit_cmd w i o p).1 ∧
    (∀ u hs d, Event.netPost u hs d ∉ (edit_cmd w i o p).1) ∧
    (∀ path cs, Event.fileWrite path cs ∉ (edit_cmd w i o p).1) ∧
    noCheckBeforeRead (edit_cmd w2 i o p).1 = true := by
  refine ⟨?_, ?_, ?_, ?_, ?_⟩
  · simp [edit_cmd, edit_svg, hmiss]
  · simp [edit_cmd, edit_svg, hmiss]
  · intro u hs d; simp [edit_cmd, edit_svg, hmiss]
  · intro path cs; simp [edit_cmd, edit_svg, hmiss]
  · rcases edit_cmd_trace_shape w2 i o p with h | ⟨rest, hrest⟩
    · rw [h]; rfl
    · rw [hrest]; rfl

/-- C6 witness at a world with an empty filesystem. -/
theorem C6_witness :
    (edit_cmd ⟨some "key", [], .error ""⟩ "in.svg" "o" "p").2 = .exited 1 ∧
    Event.echo (errFileNotFound "in.svg") ∈ (edit_cmd ⟨some "key", [], .error ""⟩ "in.svg" "o" "p").1 ∧
    (∀ u hs d, Event.netPost u hs d ∉ (edit_cmd ⟨some "key", [], .error ""⟩ "in.svg" "o" "p").1) ∧
    (∀ path cs, Event.fileWrite path cs ∉ (edit_cmd ⟨some "key", [], .error ""⟩ "in.svg" "o" "p").1) ∧
    noCheckBeforeRead (edit_cmd ⟨some "key", [], .error ""⟩ "in.svg" "o" "p").1 = true :=
  C6_missing_input ⟨some "key", [], .error ""⟩ ⟨some "key", [], .error ""⟩ "in.svg" "o" "p" rfl

/-- C7: the edit request carries a single message whose content is
exactly two ordered text blocks: first the instruction with the prompt
appended, second the existing SVG text verbatim. -/
theorem C7_edit_request_blocks (p s : String) :
    (editData p s).messages =
      [{ role := "user"
         content := .blocks
           [{ type := "text", text := "Here is an SVG file. " ++ p }
            , { type := "text", text := s }] }] := rfl

/-- C8: the create request carries a single message whose sole content is
the fixed instruction template with the prompt appended verbatim. -/
theorem C8_create_request_message (p : String) :
    (createData p).messages =
      [{ role := "user"
         content := .plain ("Create an SVG image based on this description: " ++ p) }] := rfl

end SvgCli
